import Mathlib

/-!
Verification development for the portl migration pipeline.

Shallow embedding of the core data-movement code:
* `readData` — the batched pagination loop of
  `PostgresSourceConnector.read_data` (src/portl/connectors/postgres.py):
  `LIMIT batch_size OFFSET current_offset` pages, stopping on an empty or
  short page, advancing the offset by `batch_size` after each full page.
* `csvPandasRead` / `csvReadData` — the batched read loop of
  `CsvSourceConnector.read_data` (src/portl/connectors/csv.py), including the
  exact pandas `skiprows=range(1, skip_rows + 1)` semantics (lines with index
  in `1..skip_rows` are removed from the file; with a header the remaining
  line 0 is the header, without a header the remaining line 0 is a data row).
  The loop can fail to terminate (headerless file, `batch_size = 1`), so the
  embedding is fuel-bounded and returns `none` where the Python loop diverges
  within the row-count bound.

Rows are modelled generically: a source of `R` rows is a `List α` of length
`R`; a batch is a `List α`.
-/

namespace Portl

/-- Embeds the pagination loop of `PostgresSourceConnector.read_data`:
starting from `offset`, repeatedly read `(rows.drop offset).take batchSize`
(the `LIMIT batchSize OFFSET current_offset` page); an empty page ends
iteration without being yielded, a short page is yielded and ends iteration,
and a full page is yielded and advances the offset by `batchSize`. -/
def readData (rows : List α) (batchSize offset : Nat) : List (List α) :=
  if ((rows.drop offset).take batchSize).isEmpty then []
  else if ((rows.drop offset).take batchSize).length < batchSize then
    [(rows.drop offset).take batchSize]
  else ((rows.drop offset).take batchSize) :: readData rows batchSize (offset + batchSize)
termination_by rows.length - offset
decreasing_by
  rename_i hne _hlen
  simp only [List.isEmpty_eq_true, List.take_eq_nil_iff, not_or] at hne
  have hdrop := hne.2
  rw [List.drop_eq_nil_iff] at hdrop
  have hbs : batchSize ≠ 0 := hne.1
  omega

/-- Concatenating all pages yielded by `readData` starting at `offset`
recovers exactly `rows.drop offset`, provided the batch size is positive. -/
theorem readData_flatten (rows : List α) {b : Nat} (hb : 0 < b) :
    ∀ offset, (readData rows b offset).flatten = rows.drop offset := by
  have H : ∀ n offset, rows.length - offset ≤ n →
      (readData rows b offset).flatten = rows.drop offset := by
    intro n
    induction n with
    | zero =>
      intro offset hoff
      have hdrop : rows.drop offset = [] := by
        rw [List.drop_eq_nil_iff]; omega
      rw [readData]
      simp [hdrop]
    | succ n ih =>
      intro offset hoff
      rw [readData]
      split
      · rename_i hempty
        simp only [List.isEmpty_eq_true, List.take_eq_nil_iff] at hempty
        rcases hempty with h0 | hnil
        · omega
        · simp [hnil]
      · split
        · rename_i hempty hshort
          have hlen : (rows.drop offset).length < b := by
            have := List.length_take b (rows.drop offset)
            omega
          have : (rows.drop offset).take b = rows.drop offset :=
            List.take_of_length_le (Nat.le_of_lt hlen)
          simp [this]
        · rename_i hempty hshort
          have hne : ¬ rows.drop offset = [] := by
            intro hnil
            apply hempty
            simp [hnil]
          have hofflt : offset < rows.length := by
            rw [List.drop_eq_nil_iff] at hne
            omega
          have hrec : (readData rows b (offset + b)).flatten = rows.drop (offset + b) := by
            apply ih
            omega
          simp only [List.flatten_cons, hrec]
          rw [← List.drop_drop]
          exact List.take_append_drop b (rows.drop offset)
  intro offset
  exact H (rows.length - offset) offset (Nat.le_refl _)

/-- Every batch yielded by `readData` is nonempty and no longer than the
requested batch size. -/
theorem readData_mem_length (rows : List α) (b offset : Nat) :
    ∀ batch ∈ readData rows b offset, batch ≠ [] ∧ batch.length ≤ b := by
  have H : ∀ n offset, rows.length - offset ≤ n →
      ∀ batch ∈ readData rows b offset, batch ≠ [] ∧ batch.length ≤ b := by
    intro n
    induction n with
    | zero =>
      intro offset hoff batch hmem
      rw [readData] at hmem
      have hdrop : rows.drop offset = [] := by
        rw [List.drop_eq_nil_iff]; omega
      simp [hdrop] at hmem
    | succ n ih =>
      intro offset hoff batch hmem
      rw [readData] at hmem
      split at hmem
      · simp at hmem
      · rename_i hchunk_ne
        have hne : (rows.drop offset).take b ≠ [] := by
          intro hnil
          apply hchunk_ne
          simp [hnil]
        split at hmem
        · simp only [List.mem_singleton] at hmem
          subst hmem
          refine ⟨hne, ?_⟩
          have := List.length_take b (rows.drop offset)
          omega
        · rcases List.mem_cons.mp hmem with hmem | hmem
          · subst hmem
            refine ⟨hne, ?_⟩
            have := List.length_take b (rows.drop offset)
            omega
          · have hofflt : offset < rows.length := by
              have hd : ¬ rows.drop offset = [] := by
                intro hnil
                apply hne
                simp [hnil]
              rw [List.drop_eq_nil_iff] at hd
              omega
            have hb : 0 < b := by
              rcases Nat.eq_zero_or_pos b with h0 | h; · simp [h0] at hne
              exact h
            exact ih (offset + b) (by omega) batch hmem
  intro batch hmem
  exact H (rows.length - offset) offset (Nat.le_refl _) batch hmem

/-- Every batch other than the last one yielded by `readData` has length
exactly the batch size. -/
theorem readData_dropLast_length (rows : List α) (b offset : Nat) :
    ∀ batch ∈ (readData rows b offset).dropLast, batch.length = b := by
  have mem_dropLast_cons : ∀ (x a : List α) (l : List (List α)),
      x ∈ (a :: l).dropLast → x = a ∨ x ∈ l.dropLast := by
    intro x a l h
    cases l with
    | nil => simp at h
    | cons c l =>
      rw [List.dropLast_cons₂] at h
      rcases List.mem_cons.mp h with h | h
      · exact Or.inl h
      · exact Or.inr h
  have H : ∀ n offset, rows.length - offset ≤ n →
      ∀ batch ∈ (readData rows b offset).dropLast, batch.length = b := by
    intro n
    induction n with
    | zero =>
      intro offset hoff batch hmem
      rw [readData] at hmem
      have hdrop : rows.drop offset = [] := by
        rw [List.drop_eq_nil_iff]; omega
      simp [hdrop] at hmem
    | succ n ih =>
      intro offset hoff batch hmem
      rw [readData] at hmem
      split at hmem
      · simp at hmem
      · split at hmem
        · simp at hmem
        · rename_i hempty hshort
          have hne : (rows.drop offset).take b ≠ [] := by
            intro hnil
            apply hempty
            simp [hnil]
          have hlen : ((rows.drop offset).take b).length = b := by
            have := List.length_take b (rows.drop offset)
            omega
          rcases mem_dropLast_cons batch _ _ hmem with h | h
          · subst h; exact hlen
          · have hofflt : offset < rows.length := by
              have hd : ¬ rows.drop offset = [] := by
                intro hnil
                apply hne
                simp [hnil]
              rw [List.drop_eq_nil_iff] at hd
              omega
            have hb : 0 < b := by
              rcases Nat.eq_zero_or_pos b with h0 | hpos; · simp [h0] at hne
              exact hpos
            exact ih (offset + b) (by omega) batch h
  intro batch hmem
  exact H (rows.length - offset) offset (Nat.le_refl _) batch hmem

/-- Batch sizing of the Postgres pagination loop: with a positive batch size
and offset 0, the yielded batch lengths sum to the total row count, every
batch except possibly the last has length exactly `N`, and every batch has
length at most `N`. -/
theorem readData_counts (rows : List α) {N : Nat} (hN : 0 < N) :
    ((readData rows N 0).map List.length).sum = rows.length ∧
    (∀ batch ∈ (readData rows N 0).dropLast, batch.length = N) ∧
    (∀ batch ∈ readData rows N 0, batch.length ≤ N) := by
  refine ⟨?_, readData_dropLast_length rows N 0, ?_⟩
  · rw [← List.length_flatten, readData_flatten rows hN 0]
    simp
  · intro batch hmem
    exact (readData_mem_length rows N 0 batch hmem).2

/-- Restartability of the Postgres pagination loop: reading from offset `K`
yields exactly the row sequence of a read from offset 0 with its first `K`
rows dropped (for batch size 0 both reads yield nothing). -/
theorem readData_restartable (rows : List α) (N K : Nat) :
    (readData rows N K).flatten = ((readData rows N 0).flatten).drop K := by
  rcases Nat.eq_zero_or_pos N with h0 | hpos
  · subst h0
    have hnil : ∀ o, readData rows 0 o = [] := by
      intro o
      rw [readData]
      simp
    simp [hnil]
  · rw [readData_flatten rows hpos K, readData_flatten rows hpos 0]
    simp

/-- Embeds one `pd.read_csv` call as issued by `CsvSourceConnector.read_data`:
`skiprows = range(1, skip_rows + 1) if skip_rows > 0 else None`,
`nrows = batchSize`, `header = 0 if has_header else None`. The file is the
optional header line followed by `dataRows`. With a header, file lines
`1..skipRows` are the first `skipRows` data rows, so they are dropped and
line 0 remains the header. Without a header, file line 0 is the FIRST DATA
ROW and is never in `range(1, skip_rows + 1)`, so for `skipRows > 0` the
read keeps data row 0 and drops data rows `1..skipRows`. -/
def csvPandasRead (dataRows : List α) (hasHeader : Bool) (skipRows nrows : Nat) : List α :=
  if hasHeader then
    (dataRows.drop skipRows).take nrows
  else
    if skipRows = 0 then dataRows.take nrows
    else (dataRows.take 1 ++ dataRows.drop (skipRows + 1)).take nrows

/-- Embeds the skip-row computation of `CsvSourceConnector.read_data`:
`skip_rows = current_offset` and, when the file has a header, one more
(`skip_rows += 1  # Skip header row`). -/
def csvSkipRows (hasHeader : Bool) (currentOffset : Nat) : Nat :=
  currentOffset + (if hasHeader then 1 else 0)

/-- Embeds the `while True` loop of `CsvSourceConnector.read_data`. Each
iteration reads a chunk with the skip rows of `csvSkipRows`; an empty chunk
ends iteration, a short chunk is yielded and ends iteration, and otherwise
`current_offset` advances by the chunk length. The loop does not always
terminate (headerless file with `batch_size = 1` re-reads the first row
forever), so the embedding is fuel-bounded: `none` means the loop has not
finished within `fuel` iterations. -/
def csvReadDataAux (dataRows : List α) (hasHeader : Bool)
    (batchSize fuel currentOffset : Nat) : Option (List (List α)) :=
  match fuel with
  | 0 => none
  | fuel + 1 =>
    if (csvPandasRead dataRows hasHeader
          (csvSkipRows hasHeader currentOffset) batchSize).isEmpty then
      some []
    else if (csvPandasRead dataRows hasHeader
          (csvSkipRows hasHeader currentOffset) batchSize).length < batchSize then
      some [csvPandasRead dataRows hasHeader
          (csvSkipRows hasHeader currentOffset) batchSize]
    else
      match csvReadDataAux dataRows hasHeader batchSize fuel
          (currentOffset + (csvPandasRead dataRows hasHeader
            (csvSkipRows hasHeader currentOffset) batchSize).length) with
      | some rest =>
          some (csvPandasRead dataRows hasHeader
            (csvSkipRows hasHeader currentOffset) batchSize :: rest)
      | none => none

/-- `CsvSourceConnector.read_data` run with enough fuel for every terminating
execution (a terminating loop performs at most `dataRows.length + 1`
iterations); `none` marks the executions where the Python loop diverges. -/
def csvReadData (dataRows : List α) (hasHeader : Bool) (batchSize offset : Nat) :
    Option (List (List α)) :=
  csvReadDataAux dataRows hasHeader batchSize (dataRows.length + 1) offset

/-- Every batch yielded by the CSV read loop (when it terminates) is
nonempty: an empty chunk breaks out of the loop before being yielded. -/
theorem csvReadDataAux_mem_ne_nil (dataRows : List α) (hasHeader : Bool)
    (batchSize : Nat) :
    ∀ fuel currentOffset batches,
      csvReadDataAux dataRows hasHeader batchSize fuel currentOffset = some batches →
      ∀ batch ∈ batches, batch ≠ [] := by
  intro fuel
  induction fuel with
  | zero =>
    intro co batches h
    rw [csvReadDataAux] at h
    exact absurd h (by simp)
  | succ n ih =>
    intro co batches h
    rw [csvReadDataAux] at h
    split at h
    · simp only [Option.some.injEq] at h
      subst h
      intro batch hmem
      simp at hmem
    · rename_i hne
      split at h
      · simp only [Option.some.injEq] at h
        subst h
        intro batch hmem
        simp only [List.mem_singleton] at hmem
        subst hmem
        intro hnil
        apply hne
        simp [hnil]
      · split at h
        · rename_i rest hrest
          simp only [Option.some.injEq] at h
          subst h
          intro batch hmem
          rcases List.mem_cons.mp hmem with hmem | hmem
          · subst hmem
            intro hnil
            apply hne
            simp [hnil]
          · exact ih _ rest hrest batch hmem
        · exact absurd h (by simp)

/-- C10: read_data never yields an empty batch — for the Postgres pagination
loop and for the CSV read loop alike, a page that would contain zero rows
terminates the iteration instead of being yielded, so every yielded batch
contains at least one row. -/
theorem claim_C10 {α : Type} :
    (∀ (rows : List α) (batchSize offset : Nat),
        ∀ batch ∈ readData rows batchSize offset, batch ≠ []) ∧
    (∀ (dataRows : List α) (hasHeader : Bool) (batchSize offset : Nat)
        (batches : List (List α)),
        csvReadData dataRows hasHeader batchSize offset = some batches →
        ∀ batch ∈ batches, batch ≠ []) := by
  constructor
  · intro rows batchSize offset batch hmem
    exact (readData_mem_length rows batchSize offset batch hmem).1
  · intro dataRows hasHeader batchSize offset batches h
    exact csvReadDataAux_mem_ne_nil dataRows hasHeader batchSize _ offset batches h

/-- Witness for C10 at a concrete input: the single batch yielded by the
Postgres loop on a one-row source is nonempty. -/
theorem claim_C10_witness : ([5] : List Nat) ≠ [] := by
  refine (claim_C10 (α := Nat)).1 [5] 1 0 [5] ?_
  rw [readData, readData]
  simp

/-- C1 fails on the code: on a headered CSV source holding the R = 2 rows
`r0, r1`, `CsvSourceConnector.read_data(batch_size = 1, offset = 0)` yields
the single batch `[r1]` — `skip_rows = offset + 1` combined with
`skiprows = range(1, skip_rows + 1)` drops the first data row in addition to
the header — so the batch row counts sum to 1, not R = 2. The Postgres
pagination loop at the same input yields `[r0]`, `[r1]` as the claim
demands (see `readData_counts`). -/
theorem claim_C1 :
    csvReadData ["r0", "r1"] true 1 0 = some [["r1"]] ∧
    (((csvReadData ["r0", "r1"] true 1 0).getD []).map List.length).sum ≠
      (["r0", "r1"] : List String).length ∧
    readData ["r0", "r1"] 1 0 = [["r0"], ["r1"]] := by
  refine ⟨rfl, by decide, ?_⟩
  rw [readData, readData, readData]
  simp

/-- C2 fails on the code: on a headerless CSV source holding the rows
`a, b, c`, `read_data(batch_size = 2, offset = 1)` yields `[a, c]`, `[a]`
(pandas `skiprows = range(1, skip_rows + 1)` never skips file line 0, so the
first data row is re-read on every page), while `read_data(batch_size = 2,
offset = 0)` yields `[a, b]`, `[a]`; the offset-1 row sequence `a, c, a` is
not the offset-0 row sequence with its first row dropped (`b, a`). The
Postgres pagination loop satisfies the claim (see `readData_restartable`). -/
theorem claim_C2 :
    csvReadData ["a", "b", "c"] false 2 1 = some [["a", "c"], ["a"]] ∧
    csvReadData ["a", "b", "c"] false 2 0 = some [["a", "b"], ["a"]] ∧
    ((csvReadData ["a", "b", "c"] false 2 1).getD []).flatten ≠
      (((csvReadData ["a", "b", "c"] false 2 0).getD []).flatten).drop 1 := by
  refine ⟨rfl, rfl, by decide⟩

/-- The CSV read loop of `CsvSourceConnector.read_data` does not even
terminate on a headerless one-row file with `batch_size = 1`: every
iteration re-reads the first row as a full batch. The embedding returns
`none` (fuel exhausted) there. -/
theorem csvReadData_diverges_example :
    csvReadData ["a"] false 1 0 = none := rfl

/-! Transaction wrapper (`BaseDestinationConnector.transaction_context`,
src/portl/connectors/base.py): `begin_transaction()`, run the body,
`commit_transaction()` on normal completion; on any exception raised inside,
`rollback_transaction()` and re-raise the same exception. The embedding
records the transaction calls the wrapper makes around the body's own event
trace, and the body's outcome as an `Except`. -/

inductive TxEvent
  | beginTx
  | commitTx
  | rollbackTx
deriving DecidableEq

/-- Embeds `BaseDestinationConnector.transaction_context`: the wrapper emits
`begin` first, then the body's events; a body that completes normally is
followed by exactly one `commit`, a body that raises is followed by exactly
one `rollback` and the exception is re-raised unchanged. -/
def transaction_context (bodyEvents : List TxEvent) (bodyResult : Except ε α) :
    List TxEvent × Except ε α :=
  match bodyResult with
  | Except.ok a =>
      (TxEvent.beginTx :: (bodyEvents ++ [TxEvent.commitTx]), Except.ok a)
  | Except.error e =>
      (TxEvent.beginTx :: (bodyEvents ++ [TxEvent.rollbackTx]), Except.error e)

/-- C4: the transaction wrapper begins a transaction first; on normal
completion of the body it adds exactly one commit and no rollback; on an
exception it adds exactly one rollback and no commit, and the wrapper's
outcome is always the body's outcome (the same value, or the same re-raised
exception). -/
theorem claim_C4 (bodyEvents : List TxEvent) (bodyResult : Except ε α) :
    (transaction_context bodyEvents bodyResult).1.head? = some TxEvent.beginTx ∧
    (transaction_context bodyEvents bodyResult).2 = bodyResult ∧
    (transaction_context bodyEvents bodyResult).1.count TxEvent.commitTx
      = bodyEvents.count TxEvent.commitTx + (if bodyResult.isOk then 1 else 0) ∧
    (transaction_context bodyEvents bodyResult).1.count TxEvent.rollbackTx
      = bodyEvents.count TxEvent.rollbackTx + (if bodyResult.isOk then 0 else 1) := by
  cases bodyResult <;>
    simp [transaction_context, Except.isOk, Except.toBool, List.count_cons,
      List.count_append]

/-- Witness for C4 at a concrete input: a failing body with one write-free
event trace gets a rollback and its error is re-raised. -/
theorem claim_C4_witness :
    (transaction_context [] (Except.error "boom" : Except String Nat)).2
        = Except.error "boom" ∧
    (transaction_context [] (Except.error "boom" : Except String Nat)).1.count
        TxEvent.rollbackTx = 1 :=
  ⟨(claim_C4 [] (Except.error "boom")).2.1,
   (claim_C4 [] (Except.error "boom")).2.2.2⟩

/-! Column rename mapping (`JobRunner._apply_schema_mapping`,
src/portl/services/job_runner.py). Rows are Python dicts: an ordered
association list with unique keys where assigning to an existing key
replaces its value in place and assigning a fresh key appends it. -/

/-- Embeds Python dict assignment `d[k] = v`: replace in place when the key
exists, append otherwise. -/
def dictInsert (d : List (String × α)) (k : String) (v : α) : List (String × α) :=
  if d.any (fun kv => kv.1 == k) then
    d.map (fun kv => if kv.1 == k then (k, v) else kv)
  else d ++ [(k, v)]

/-- Embeds Python `mapping.get(source_col, source_col)`. -/
def dictGet (mapping : List (String × String)) (k dflt : String) : String :=
  match mapping.find? (fun kv => kv.1 == k) with
  | some kv => kv.2
  | none => dflt

/-- Embeds the inner loop of `JobRunner._apply_schema_mapping` for one row:
build `mapped_row` by inserting `mapped_row[mapping.get(source_col,
source_col)] = value` for each entry of the row in order. -/
def apply_schema_mapping_row (mapping : List (String × String))
    (row : List (String × α)) : List (String × α) :=
  row.foldl (fun acc kv => dictInsert acc (dictGet mapping kv.1 kv.1) kv.2) []

/-- Embeds `JobRunner._apply_schema_mapping`: map the row transformation
over the batch, preserving row order. -/
def apply_schema_mapping (batch : List (List (String × α)))
    (mapping : List (String × String)) : List (List (String × α)) :=
  batch.map (apply_schema_mapping_row mapping)

/-- Inserting a key not present in the dict appends it. -/
theorem dictInsert_of_not_mem (d : List (String × α)) (k : String) (v : α)
    (h : ∀ kv ∈ d, kv.1 ≠ k) : dictInsert d k v = d ++ [(k, v)] := by
  have hany : d.any (fun kv => kv.1 == k) = false := by
    rw [List.any_eq_false]
    intro kv hkv
    simpa using h kv hkv
  simp [dictInsert, hany]

/-- Folding dict inserts over a row whose renamed keys are pairwise distinct
and fresh for the accumulator appends the renamed pairs in order. -/
theorem apply_row_foldl (mapping : List (String × String)) :
    ∀ (row acc : List (String × α)),
      (∀ kv ∈ row, ∀ kv2 ∈ acc, kv2.1 ≠ dictGet mapping kv.1 kv.1) →
      (row.map (fun kv => dictGet mapping kv.1 kv.1)).Nodup →
      row.foldl (fun acc kv => dictInsert acc (dictGet mapping kv.1 kv.1) kv.2) acc
        = acc ++ row.map (fun kv => (dictGet mapping kv.1 kv.1, kv.2)) := by
  intro row
  induction row with
  | nil => intro acc _ _; simp
  | cons kv rest ih =>
    intro acc hdisj hnodup
    simp only [List.foldl_cons]
    rw [dictInsert_of_not_mem acc (dictGet mapping kv.1 kv.1) kv.2
        (fun kv2 hkv2 => hdisj kv (List.mem_cons_self kv rest) kv2 hkv2)]
    rw [ih (acc ++ [(dictGet mapping kv.1 kv.1, kv.2)]) ?_ ?_]
    · simp
    · intro kv3 hkv3 kv2 hkv2
      rcases List.mem_append.mp hkv2 with hold | hnew
      · exact hdisj kv3 (List.mem_cons_of_mem kv hkv3) kv2 hold
      · simp only [List.mem_singleton] at hnew
        subst hnew
        simp only [List.map_cons, List.nodup_cons] at hnodup
        intro heq
        have heq2 : dictGet mapping kv.1 kv.1 = dictGet mapping kv3.1 kv3.1 := heq
        apply hnodup.1
        rw [heq2]
        exact List.mem_map_of_mem (fun kv => dictGet mapping kv.1 kv.1) hkv3
    · simp only [List.map_cons, List.nodup_cons] at hnodup
      exact hnodup.2

/-- C5 fails on the code as universally stated: applying the mapping
`{a ↦ b}` to the single row `{a: 1, b: 2}` yields the one-key row `{b: 2}`
(the renamed column `a` collides with the pass-through column `b` inside the
output dict, so the later value overwrites it), not a row with the input's
two keys. -/
theorem claim_C5_counterexample :
    apply_schema_mapping [[("a", (1 : Nat)), ("b", 2)]] [("a", "b")]
        = [[("b", 2)]] ∧
    ¬ (([("b", (2 : Nat))] : List (String × Nat)).length
        = ([("a", (1 : Nat)), ("b", 2)] : List (String × Nat)).length) := by
  decide

/-- C5, amended: `_apply_schema_mapping` is pure and order-preserving — the
output batch is the rowwise image of the input batch and has the same number
of rows in order; and for every row on which the applied renaming is
injective (no two of the row's columns map to the same destination name),
the output row is exactly the input row with keys renamed in place: the same
number of keys, keys absent from the mapping passing through unchanged with
their values. -/
theorem claim_C5 (mapping : List (String × String))
    (batch : List (List (String × α))) :
    apply_schema_mapping batch mapping
        = batch.map (apply_schema_mapping_row mapping) ∧
    (apply_schema_mapping batch mapping).length = batch.length ∧
    (∀ row ∈ batch,
      (row.map (fun kv => dictGet mapping kv.1 kv.1)).Nodup →
      apply_schema_mapping_row mapping row
        = row.map (fun kv => (dictGet mapping kv.1 kv.1, kv.2))) := by
  refine ⟨rfl, by simp [apply_schema_mapping], ?_⟩
  intro row _ hnodup
  have := apply_row_foldl mapping row [] (by intro kv _ kv2 hkv2; simp at hkv2) hnodup
  simpa [apply_schema_mapping_row] using this

/-- Witness for C5 at a concrete input: renaming `a ↦ c` on the row
`{a: 1, b: 2}` (injective on its keys) renames in place and keeps the
unmapped column `b` with its value. -/
theorem claim_C5_witness :
    apply_schema_mapping_row [("a", "c")] [("a", (1 : Nat)), ("b", 2)]
        = [("c", 1), ("b", 2)] :=
  (claim_C5 [("a", "c")] [[("a", (1 : Nat)), ("b", 2)]]).2.2
    [("a", (1 : Nat)), ("b", 2)] (by decide) (by decide)

/-! Schema compatibility validation. A `GenericSchema` is an ordered mapping
from column name to normalized type tag, modelled as an association list.
The produced warning strings are abstracted to a structured `SchemaWarning`
carrying the same data. -/

inductive SchemaWarning
  | missingColumns (columns : List String)
  | typeMismatch (column sourceType destType : String)
deriving DecidableEq

/-- Embeds Python `str.lower()`. -/
def strLower (s : String) : String := s.map Char.toLower

/-- Embeds `BaseDestinationConnector.validate_schema_compatibility`
(src/portl/connectors/base.py), the implementation inherited by the Postgres
destination connector: report the source columns missing from the
destination schema (one warning when the difference is nonempty), then a
warning for every column present in both whose lowercased type tags differ.
There is no special case for an empty destination schema. -/
def validate_schema_compatibility (source_schema dest_schema : List (String × String)) :
    List SchemaWarning :=
  (if ((source_schema.map Prod.fst).filter
        (fun k => !((dest_schema.map Prod.fst).contains k))).isEmpty then []
   else [SchemaWarning.missingColumns ((source_schema.map Prod.fst).filter
        (fun k => !((dest_schema.map Prod.fst).contains k)))]) ++
  source_schema.filterMap (fun kt =>
    match dest_schema.find? (fun kv => kv.1 == kt.1) with
    | some kv =>
        if strLower kt.2 ≠ strLower kv.2 then
          some (SchemaWarning.typeMismatch kt.1 (strLower kt.2) (strLower kv.2))
        else none
    | none => none)

/-- Embeds `CsvDestinationConnector.validate_schema_compatibility`
(src/portl/connectors/csv.py): identical to the base implementation except
that an empty destination schema (new file) returns no warnings at once. -/
def csv_validate_schema_compatibility (source_schema dest_schema : List (String × String)) :
    List SchemaWarning :=
  if dest_schema.isEmpty then []
  else validate_schema_compatibility source_schema dest_schema

/-- C6 fails on the code as stated for every destination connector: the base
implementation, which the Postgres destination connector inherits (its
`_get_table_schema` returns the empty mapping when the table does not
exist), reports all source columns as missing against an empty destination
schema instead of returning no warnings. -/
theorem claim_C6_counterexample :
    validate_schema_compatibility [("id", "int")] []
        = [SchemaWarning.missingColumns ["id"]] ∧
    validate_schema_compatibility [("id", "int")] [] ≠ [] := by
  decide

/-- C6, amended: against an empty destination schema the CSV destination
connector returns no warnings for every source schema, while the base
implementation used by the Postgres destination returns no warnings exactly
when the source schema is itself empty (otherwise it emits the
missing-columns warning naming every source column). -/
theorem claim_C6 (source_schema : List (String × String)) :
    csv_validate_schema_compatibility source_schema [] = [] ∧
    (validate_schema_compatibility source_schema [] = [] ↔ source_schema = []) := by
  constructor
  · simp [csv_validate_schema_compatibility]
  · cases source_schema with
    | nil => simp [validate_schema_compatibility]
    | cons kt rest => simp [validate_schema_compatibility]

/-- Witness for C6 at a concrete input: a nonempty source schema against an
empty CSV destination schema produces no warnings. -/
theorem claim_C6_witness :
    csv_validate_schema_compatibility [("id", "int"), ("name", "text")] [] = [] :=
  (claim_C6 [("id", "int"), ("name", "text")]).1

/-! Postgres destination writes (`PostgresDestinationConnector.write_batch`,
src/portl/connectors/postgres.py). The connector picks the insert idiom from
the conflict strategy before touching the database: `overwrite` builds the
`INSERT ... ON CONFLICT DO UPDATE` upsert, `skip` builds `INSERT ... ON
CONFLICT DO NOTHING`, `fail` builds a plain `INSERT`, and anything else
raises `ValueError` before any row is written. The executed batch insert is
abstracted as appending the rows to the destination state; the chosen idiom
is recorded. -/

inductive InsertIdiom
  | upsert
  | insertIgnore
  | plainInsert
deriving DecidableEq

/-- Embeds `PostgresDestinationConnector.write_batch`: result is the new
destination state paired with the idiom used (if any) and the returned row
count or the raised error. An empty batch returns 0 without dispatching. -/
def pg_write_batch (dest rows : List α) (conflict_strategy : String) :
    (List α × Option InsertIdiom) × Except String Nat :=
  if rows.isEmpty then ((dest, none), Except.ok 0)
  else if conflict_strategy = "overwrite" then
    ((dest ++ rows, some InsertIdiom.upsert), Except.ok rows.length)
  else if conflict_strategy = "skip" then
    ((dest ++ rows, some InsertIdiom.insertIgnore), Except.ok rows.length)
  else if conflict_strategy = "fail" then
    ((dest ++ rows, some InsertIdiom.plainInsert), Except.ok rows.length)
  else
    ((dest, none), Except.error ("Unsupported conflict strategy: " ++ conflict_strategy))

/-- C7: on a nonempty batch the `merge` strategy raises the
unsupported-strategy error with the destination unchanged and no insert
executed, while `overwrite`, `skip` and `fail` pick the upsert,
insert-ignore and plain-insert idioms respectively and return the batch's
row count. -/
theorem claim_C7 (dest rows : List α) (h : rows ≠ []) :
    pg_write_batch dest rows "merge"
      = ((dest, none), Except.error ("Unsupported conflict strategy: " ++ "merge")) ∧
    pg_write_batch dest rows "overwrite"
      = ((dest ++ rows, some InsertIdiom.upsert), Except.ok rows.length) ∧
    pg_write_batch dest rows "skip"
      = ((dest ++ rows, some InsertIdiom.insertIgnore), Except.ok rows.length) ∧
    pg_write_batch dest rows "fail"
      = ((dest ++ rows, some InsertIdiom.plainInsert), Except.ok rows.length) := by
  have hne : rows.isEmpty = false := by
    cases rows with
    | nil => exact absurd rfl h
    | cons a l => rfl
  refine ⟨?_, ?_, ?_, ?_⟩ <;> simp [pg_write_batch, hne]

/-- Witness for C7 at a concrete input: a one-row batch. -/
theorem claim_C7_witness :
    pg_write_batch ([] : List Nat) [7] "merge"
      = (([], none), Except.error ("Unsupported conflict strategy: " ++ "merge")) ∧
    pg_write_batch ([] : List Nat) [7] "overwrite"
      = (([7], some InsertIdiom.upsert), Except.ok 1) ∧
    pg_write_batch ([] : List Nat) [7] "skip"
      = (([7], some InsertIdiom.insertIgnore), Except.ok 1) ∧
    pg_write_batch ([] : List Nat) [7] "fail"
      = (([7], some InsertIdiom.plainInsert), Except.ok 1) :=
  claim_C7 [] [7] (by decide)

/-! Job configuration model (src/portl/schema.py). `SourceConfig` and
`DestinationConfig` are `Union[DatabaseConfig, CsvConfig,
GoogleSheetsConfig]`, embedded as a sum type; each variant carries its
`type` tag field. `JobConfig.__post_init__` is embedded as a smart
constructor returning the raised `ValueError` message or the validated
configuration. -/

/-- Embeds `DatabaseConfig` (fields used by `JobConfig.__post_init__` plus
the remaining declared fields). -/
structure DatabaseConfig where
  type : String
  host : String
  database : String
  username : String
  password : String
  port : Option Int
  schema : Option String
  table : Option String
  query : Option String
deriving DecidableEq

/-- Embeds `CsvConfig`. -/
structure CsvConfig where
  type : String
  path : String
  delimiter : String
  encoding : String
  has_header : Bool
deriving DecidableEq

/-- Embeds `GoogleSheetsConfig`. -/
structure GoogleSheetsConfig where
  type : String
  spreadsheet_id : String
  sheet_name : String
  credentials_path : Option String
  range_name : Option String
deriving DecidableEq

/-- Embeds the union `Union[DatabaseConfig, CsvConfig, GoogleSheetsConfig]`
used for both the source and destination slots of a job. -/
inductive EndpointConfig
  | db (cfg : DatabaseConfig)
  | csv (cfg : CsvConfig)
  | google_sheets (cfg : GoogleSheetsConfig)
deriving DecidableEq

/-- The `.type` tag attribute every config variant carries. -/
def EndpointConfig.typeTag : EndpointConfig → String
  | .db cfg => cfg.type
  | .csv cfg => cfg.type
  | .google_sheets cfg => cfg.type

/-- Embeds `JobConfig` (the validated aggregate; hooks and transformations
are external collaborators and omitted). -/
structure JobConfig where
  source : EndpointConfig
  destination : EndpointConfig
  conflict : String
  batch_size : Int
  parallel_jobs : Int
  schema_mapping : Option (List (String × String))
deriving DecidableEq

/-- Embeds the identical-source/destination test of
`JobConfig.__post_init__`: the `ValueError` is raised only when
`source.type == destination.type`, both configs are `DatabaseConfig`
instances, and host, database and table coincide. -/
def sameLocationCheck (s d : EndpointConfig) : Bool :=
  (s.typeTag == d.typeTag) &&
    (match s, d with
     | .db sc, .db dc =>
         sc.host == dc.host && sc.database == dc.database && sc.table == dc.table
     | _, _ => false)

/-- Embeds `JobConfig.__post_init__`: reject a non-positive `batch_size`,
then a non-positive `parallel_jobs`, then a source and destination that are
same-type database configs with equal host, database and table. -/
def mkJobConfig (source destination : EndpointConfig) (conflict : String)
    (batch_size parallel_jobs : Int)
    (schema_mapping : Option (List (String × String))) : Except String JobConfig :=
  if batch_size ≤ 0 then Except.error "batch_size must be positive"
  else if parallel_jobs ≤ 0 then Except.error "parallel_jobs must be positive"
  else if sameLocationCheck source destination then
    Except.error "Source and destination cannot be identical"
  else
    Except.ok ⟨source, destination, conflict, batch_size, parallel_jobs, schema_mapping⟩

/-- C8 fails on the code as stated: a postgres source and a mysql
destination that resolve to the identical host, database and table are
accepted by `JobConfig.__post_init__`, because the identical-location check
fires only when the two declared `type` tags are equal — yet the claim
demands construction to fail whenever host, database and table coincide. -/
theorem claim_C8_counterexample :
    (mkJobConfig
        (EndpointConfig.db ⟨"postgres", "h", "d", "u", "p", some 5432, some "public",
          some "t", none⟩)
        (EndpointConfig.db ⟨"mysql", "h", "d", "u", "p", some 3306, none,
          some "t", none⟩)
        "overwrite" 1000 1 none).isOk = true := by
  decide

/-- C8, amended: construction fails whenever `batch_size ≤ 0`, and whenever
source and destination are database configs with the same declared engine
type and the same host, database and table; every successfully constructed
`JobConfig` has `batch_size > 0` and does not have such a same-type
identical database source/destination pair, and carries the given fields
unchanged. -/
theorem claim_C8 (s d : EndpointConfig) (conflict : String)
    (batch_size parallel_jobs : Int)
    (schema_mapping : Option (List (String × String))) :
    (batch_size ≤ 0 →
      mkJobConfig s d conflict batch_size parallel_jobs schema_mapping
        = Except.error "batch_size must be positive") ∧
    (sameLocationCheck s d = true →
      (mkJobConfig s d conflict batch_size parallel_jobs schema_mapping).isOk
        = false) ∧
    (∀ cfg, mkJobConfig s d conflict batch_size parallel_jobs schema_mapping
        = Except.ok cfg →
      0 < batch_size ∧ sameLocationCheck s d = false ∧
        cfg = ⟨s, d, conflict, batch_size, parallel_jobs, schema_mapping⟩) := by
  refine ⟨?_, ?_, ?_⟩
  · intro hbs
    simp [mkJobConfig, hbs]
  · intro hsame
    by_cases hbs : batch_size ≤ 0
    · simp [mkJobConfig, hbs, Except.isOk, Except.toBool]
    · by_cases hpj : parallel_jobs ≤ 0
      · simp [mkJobConfig, hbs, hpj, Except.isOk, Except.toBool]
      · simp [mkJobConfig, hbs, hpj, hsame, Except.isOk, Except.toBool]
  · intro cfg hok
    by_cases hbs : batch_size ≤ 0
    · simp [mkJobConfig, hbs] at hok
    · by_cases hpj : parallel_jobs ≤ 0
      · simp [mkJobConfig, hbs, hpj] at hok
      · by_cases hsame : sameLocationCheck s d = true
        · simp [mkJobConfig, hbs, hpj, hsame] at hok
        · simp [mkJobConfig, hbs, hpj, hsame] at hok
          exact ⟨by omega, by simpa using hsame, hok.symm⟩

/-- Witness for C8 at concrete inputs: a same-type identical
source/destination pair is rejected. -/
theorem claim_C8_witness :
    (mkJobConfig
        (EndpointConfig.db ⟨"postgres", "h", "d", "u", "p", some 5432, some "public",
          some "t", none⟩)
        (EndpointConfig.db ⟨"postgres", "h", "d", "u", "p", some 5432, some "public",
          some "t", none⟩)
        "overwrite" 1000 1 none).isOk = false :=
  (claim_C8
      (EndpointConfig.db ⟨"postgres", "h", "d", "u", "p", some 5432, some "public",
        some "t", none⟩)
      (EndpointConfig.db ⟨"postgres", "h", "d", "u", "p", some 5432, some "public",
        some "t", none⟩)
      "overwrite" 1000 1 none).2.1 (by decide)

/-! Job execution engine (`JobRunner.execute_job`,
src/portl/services/job_runner.py). The embedding keeps the exact control
flow of `execute_job`: the `try` body (validate the job file, reload the
configuration, apply the batch-size override, run the dry run or the
migration), the `except` clause that appends the exception message to the
error list and clears the success flag, and the `finally` clause that
stamps end time and duration and runs `_cleanup_connections`, which
disconnects both connectors. Wall-clock stamps and connector disconnection
are modelled as booleans set by the finalizer; the destination state is an
opaque value `σ` threaded through the executed step. -/

structure ValidationResult where
  valid : Bool
  warnings : List String
  errors : List String
deriving DecidableEq

/-- Embeds `JobRunner.validate_job_file`: a missing file raises
(`Except.error`); otherwise a parse failure of
`SchemaValidator.validate_yaml_file` is recorded as `valid = false` with the
exception message as the single error, and a successful parse is
`valid = true` with an informational warning when the conflict strategy is
`overwrite`. A non-yaml suffix only adds a warning. -/
def validate_job_file (fileExists suffixOk : Bool)
    (parse : Except String JobConfig) : Except String ValidationResult :=
  if !fileExists then Except.error "Job file not found"
  else
    match parse with
    | Except.ok cfg =>
        Except.ok
          { valid := true
            warnings :=
              (if suffixOk then [] else ["File does not have a .yaml or .yml extension"]) ++
              (if cfg.conflict = "overwrite" then ["Using overwrite conflict strategy"]
               else [])
            errors := [] }
    | Except.error e =>
        Except.ok
          { valid := false
            warnings :=
              if suffixOk then [] else ["File does not have a .yaml or .yml extension"]
            errors := [e] }

/-- The statistics dictionary returned by `_execute_dry_run` /
`_execute_migration` (the migration result has no preview or schema keys). -/
structure StepResult (ρ : Type) where
  rows_processed : Nat
  rows_written : Nat
  batches_processed : Nat
  schema_validation : Option (List SchemaWarning)
  preview_data : Option (List ρ)
deriving DecidableEq

/-- The `execution_result` dictionary of `JobRunner.execute_job`. The
`end_time` / `duration_seconds` stamps and the disconnections performed by
`_cleanup_connections` are modelled as booleans. -/
structure ExecutionResult (ρ : Type) where
  success : Bool
  rows_processed : Nat
  rows_written : Nat
  batches_processed : Nat
  errors : List String
  warnings : List String
  end_time_stamped : Bool
  duration_stamped : Bool
  source_disconnected : Bool
  destination_disconnected : Bool
  schema_validation : Option (List SchemaWarning)
  preview_data : Option (List ρ)
deriving DecidableEq

/-- The `execution_result` as initialized at the top of `execute_job`. -/
def initialResult : ExecutionResult ρ :=
  { success := false
    rows_processed := 0
    rows_written := 0
    batches_processed := 0
    errors := []
    warnings := []
    end_time_stamped := false
    duration_stamped := false
    source_disconnected := false
    destination_disconnected := false
    schema_validation := none
    preview_data := none }

/-- Embeds the `finally` clause of `execute_job`: stamp end time and
duration and run `_cleanup_connections` (disconnect both connectors). -/
def finalizeResult (r : ExecutionResult ρ) : ExecutionResult ρ :=
  { r with
    end_time_stamped := true
    duration_stamped := true
    source_disconnected := true
    destination_disconnected := true }

/-- Embeds the batch-size override of `execute_job`: `if config.batch_size:`
is Python truthiness, so `None` and `0` leave the job's value in place. -/
def applyBatchOverride (cfg : JobConfig) (batchOverride : Option Int) : JobConfig :=
  match batchOverride with
  | some b => if b ≠ 0 then { cfg with batch_size := b } else cfg
  | none => cfg

/-- Embeds `JobRunner.execute_job`. `parse` is the outcome of
`SchemaValidator.validate_yaml_file` on the job file (used both by
`validate_job_file` and by `load_job_config`, which re-parses the same
file); `step` is the executed phase (`_execute_dry_run` when the dry-run
flag is set, else `_execute_migration`), acting on the destination state
`σ` and returning the statistics dictionary or the raised exception. The
`finally` clause is applied on every path. -/
def execute_job {σ ρ : Type} (fileExists suffixOk : Bool)
    (parse : Except String JobConfig) (dryRun : Bool) (batchOverride : Option Int)
    (step : Bool → JobConfig → σ → (Except String (StepResult ρ)) × σ)
    (s : σ) : ExecutionResult ρ × σ :=
  match validate_job_file fileExists suffixOk parse with
  | Except.error e =>
      (finalizeResult { initialResult with errors := [e] }, s)
  | Except.ok v =>
      if !v.valid then
        (finalizeResult { initialResult with errors := v.errors }, s)
      else
        match parse with
        | Except.error e =>
            (finalizeResult { initialResult with
                warnings := v.warnings
                errors := [e] }, s)
        | Except.ok cfg =>
            match step dryRun (applyBatchOverride cfg batchOverride) s with
            | (Except.error e, s2) =>
                (finalizeResult { initialResult with
                    warnings := v.warnings
                    errors := [e] }, s2)
            | (Except.ok r, s2) =>
                (finalizeResult { initialResult (ρ := ρ) with
                    success := true
                    warnings := v.warnings
                    rows_processed := r.rows_processed
                    rows_written := r.rows_written
                    batches_processed := r.batches_processed
                    schema_validation := r.schema_validation
                    preview_data := r.preview_data }, s2)

/-- C9: whatever the job file, parse outcome, mode and step behaviour,
`execute_job` always runs finalization — end time and duration are stamped,
both connectors are disconnected — and whenever the result's success flag
is false its error list is non-empty. -/
theorem claim_C9 {σ ρ : Type} (fileExists suffixOk : Bool)
    (parse : Except String JobConfig) (dryRun : Bool) (batchOverride : Option Int)
    (step : Bool → JobConfig → σ → (Except String (StepResult ρ)) × σ) (s : σ) :
    (execute_job fileExists suffixOk parse dryRun batchOverride step s).1.end_time_stamped
        = true ∧
    (execute_job fileExists suffixOk parse dryRun batchOverride step s).1.duration_stamped
        = true ∧
    (execute_job fileExists suffixOk parse dryRun batchOverride step s).1.source_disconnected
        = true ∧
    (execute_job fileExists suffixOk parse dryRun batchOverride
        step s).1.destination_disconnected = true ∧
    ((execute_job fileExists suffixOk parse dryRun batchOverride step s).1.success = false →
      (execute_job fileExists suffixOk parse dryRun batchOverride step s).1.errors ≠ []) := by
  cases fileExists with
  | false => simp [execute_job, validate_job_file, finalizeResult, initialResult]
  | true =>
    cases parse with
    | error e => simp [execute_job, validate_job_file, finalizeResult, initialResult]
    | ok cfg =>
      rcases hstep : step dryRun (applyBatchOverride cfg batchOverride) s with ⟨out, s2⟩
      cases out with
      | error e =>
          simp [execute_job, validate_job_file, hstep, finalizeResult, initialResult]
      | ok r =>
          simp [execute_job, validate_job_file, hstep, finalizeResult, initialResult]

/-- Witness for C9 at a concrete input: a run whose job file is missing
fails with a non-empty error list. -/
theorem claim_C9_witness :
    (execute_job (σ := Nat) (ρ := Nat) false true (Except.error "bad yaml") false none
        (fun _ _ s => (Except.error "unreached", s)) 0).1.errors ≠ [] :=
  (claim_C9 false true (Except.error "bad yaml") false none
      (fun _ _ s => (Except.error "unreached", s)) 0).2.2.2.2 (by decide)

/-! Dry-run phase (`JobRunner._execute_dry_run` together with
`BaseSourceConnector.preview_data`). -/

/-- Embeds `BaseSourceConnector.preview_data`: take the first batch of
`read_data(batch_size=limit, offset=0)` (or `[]` when the iterator is
empty) and truncate it to `limit` rows. Parameterized by the connector's
first-batch function. -/
def preview_data (firstBatch : Nat → Nat → List ρ) (limit : Nat) : List ρ :=
  (firstBatch limit 0).take limit

/-- First batch yielded by the Postgres read loop (`[]` when it yields
nothing). -/
def pgFirstBatch (rows : List ρ) (batchSize offset : Nat) : List ρ :=
  (readData rows batchSize offset).headD []

/-- First batch yielded by the CSV read loop. The generator computes it
with a single pandas read before any further looping, so it is defined even
on inputs where the loop later diverges; an empty chunk means the generator
yields nothing and the caller's `next(iterator, [])` default `[]` applies,
which coincides with the empty chunk itself. -/
def csvFirstBatch (dataRows : List ρ) (hasHeader : Bool) (batchSize offset : Nat) :
    List ρ :=
  csvPandasRead dataRows hasHeader (csvSkipRows hasHeader offset) batchSize

/-- Embeds `JobRunner._execute_dry_run` over a source connector given by its
connection-test outcome, schema, `get_row_count()` result and `read_data`
first-batch function, and a destination connector given by its
connection-test outcome and `validate_schema_compatibility`. No write,
creation or transaction call is made: the destination state is returned
untouched. -/
def dry_run_step {σ ρ : Type} (sourceConnOk destConnOk : Bool)
    (sourceSchema : List (String × String)) (rowCount : Nat)
    (firstBatch : Nat → Nat → List ρ)
    (validateCompatibility : List (String × String) → List SchemaWarning) :
    σ → (Except String (StepResult ρ)) × σ := fun s =>
  if !sourceConnOk then (Except.error "Source connection test failed", s)
  else if !destConnOk then (Except.error "Destination connection test failed", s)
  else
    (Except.ok
      { rows_processed := rowCount
        rows_written := 0
        batches_processed := 0
        schema_validation := some (validateCompatibility sourceSchema)
        preview_data := some (preview_data firstBatch 5) }, s)

/-- The dry-run execution of C3's failing input: a job from a headered CSV
source holding the R = 3 rows `r0, r1, r2` (its `get_row_count()` counts
lines minus the header, giving 3) to a not-yet-existing CSV destination,
with both connection tests passing, run through `execute_job` in dry-run
mode against an opaque destination state `0`. -/
def dryRunBugOutcome : ExecutionResult String × Nat :=
  execute_job true true
    (Except.ok ⟨EndpointConfig.csv ⟨"csv", "/data/source.csv", ",", "utf-8", true⟩,
      EndpointConfig.csv ⟨"csv", "/data/dest.csv", ",", "utf-8", true⟩,
      "overwrite", 1000, 1, none⟩)
    true none
    (fun _ _ => dry_run_step true true [("c", "text")] 3
      (csvFirstBatch ["r0", "r1", "r2"] true)
      (fun src => csv_validate_schema_compatibility src []))
    0

/-- C3 fails on the code: the engine side holds at the failing input —
success is true, no row is written, the destination state is unchanged —
but the preview holds the 2 rows `r1, r2` instead of `min(5, R) = 3`,
because `CsvSourceConnector.read_data(batch_size=5, offset=0)` under
`preview_data` drops the first data row of a headered CSV. -/
theorem claim_C3 :
    (dryRunBugOutcome.1.success = true ∧
     dryRunBugOutcome.1.rows_written = 0 ∧
     dryRunBugOutcome.1.rows_processed = 3 ∧
     dryRunBugOutcome.2 = 0) ∧
    dryRunBugOutcome.1.preview_data = some ["r1", "r2"] ∧
    ¬ ((["r1", "r2"] : List String).length = min 5 3) := by
  decide

end Portl
